import Mathlib

/-!
Verification of the RACA-I generate-execute-retry workflow engine.

Shallow embedding of the Python sources:
  * `src/core/state_models.py` — the data model (`GraphState`, `PythonCode`, `CodeSolution`);
  * `src/core/nodes.py` — the workflow nodes (`optimize_prompt`, `generate_code`,
    `execute_code`, `_execute_with_e2b`, `_execute_locally`, `should_continue`);
  * `src/core/graph_flow.py` — the graph wiring (edges and conditional routing);
  * `src/core/code_agent.py` — result assembly (`_process_final_state`) and the
    initial workflow state.

External collaborators (the OpenAI completion call in `src/core/interaction.py`,
the E2B sandbox service, and the local subprocess runner) are modelled as
oracles: each call site receives the observable outcome of the call as an
explicit input.  All state updates, routing decisions, retry loops, string
classification of exception messages, and output assembly are translated
directly from the source.
-/

namespace RACA

/-! ## Character-level models of the Python string operations used by the code -/

/-- The backtick character (code point 96) that delimits markdown code fences. -/
def btick : Char := Char.ofNat 96

/-- `re.sub(r"```python\n|```", "", s)` pattern, first alternative (`nodes.py:95-96`). -/
def fencePy : List Char := "```python\n".toList

/-- `re.sub(r"```python\n|```", "", s)` pattern, second alternative (`nodes.py:95-96`). -/
def fence3 : List Char := "```".toList

/-- Does the list start with two backticks? (helper for reasoning about fences) -/
def startsTicks2 : List Char → Bool
  | c1 :: c2 :: _ => btick == c1 && btick == c2
  | _ => false

/-- Does the list start with three backticks? (helper for reasoning about fences) -/
def startsTicks3 : List Char → Bool
  | c1 :: c2 :: c3 :: _ => btick == c1 && (btick == c2 && btick == c3)
  | _ => false

/-- Does the list contain three consecutive backticks anywhere? -/
def containsTicks3 : List Char → Bool
  | [] => false
  | c :: rest => startsTicks3 (c :: rest) || containsTicks3 rest

/-- Left-to-right, non-overlapping removal of all matches of the regex
`"```python\n|```"`, exactly as `re.sub` performs it: at each position the
first alternative is tried before the second; on a match the matched
characters are dropped and scanning resumes after them (`nodes.py:95-96`). -/
def subFences (l : List Char) : List Char :=
  match l with
  | [] => []
  | c :: rest =>
    if fencePy.isPrefixOf (c :: rest) then subFences ((c :: rest).drop fencePy.length)
    else if fence3.isPrefixOf (c :: rest) then subFences ((c :: rest).drop fence3.length)
    else c :: subFences rest
termination_by l.length
decreasing_by
  · simp [fencePy]; omega
  · simp [fence3]; omega
  · simp

/-- Remove trailing whitespace characters (the right half of Python `str.strip()`). -/
def dropTrailingWS : List Char → List Char
  | [] => []
  | c :: rest =>
    match dropTrailingWS rest with
    | [] => if c.isWhitespace then [] else [c]
    | r :: rs => c :: r :: rs

/-- Python `str.strip()` on a character list: drop leading and trailing whitespace. -/
def trimChars (l : List Char) : List Char :=
  dropTrailingWS (l.dropWhile Char.isWhitespace)

/-- Python `s.strip()`. -/
def pyStrip (s : String) : String :=
  (trimChars s.toList).asString

/-- `re.sub(r"```python\n|```", "", s).strip()` — the code-fence stripping applied
to both the `imports` and `code` fields in `execute_code` (`nodes.py:95-96`). -/
def stripFences (s : String) : String :=
  (trimChars (subFences s.toList)).asString

/-- Python's substring test `pat in s` (on character lists, by scanning). -/
def containsSeq (pat : List Char) : List Char → Bool
  | [] => pat.isEmpty
  | c :: rest => pat.isPrefixOf (c :: rest) || containsSeq pat rest

/-- Python `pat in s` on strings. -/
def strContains (s pat : String) : Bool :=
  containsSeq pat.toList s.toList

/-- Python `s.lower()` (character-wise lowercasing). -/
def pyLower (s : String) : String :=
  (s.toList.map Char.toLower).asString

/-! ## Data model (`src/core/state_models.py`) -/

/-- `CodeSolution` — schema for the prompt-optimization completion
(`state_models.py:5-8`). -/
structure CodeSolution where
  optimized_prompt : String
  reasoning : String
  deriving DecidableEq, Repr

/-- `PythonCode` — schema for a generated code artifact (`state_models.py:11-15`). -/
structure PythonCode where
  task_description : String
  imports : String
  code : String
  deriving DecidableEq, Repr

/-- `GraphState` — the state threaded through the workflow graph
(`state_models.py:18-26`). -/
structure GraphState where
  initial_question : String
  optimized_prompt : String
  generation : Option PythonCode
  execution_result : Option String
  error_message : Option String
  feedback_history : List String
  iteration : Nat
  deriving DecidableEq, Repr

/-! ## Oracles for the external collaborators

The sandbox service and the local subprocess runner are out of scope for the
core (spec §1); the embedding receives the observable outcome of each external
call as an explicit input. -/

/-- `execution.logs` of an E2B `run_code` call: lists of stdout and stderr lines. -/
structure SandboxLogs where
  stdout : List String
  stderr : List String
  deriving DecidableEq, Repr

/-- Outcome of one completed E2B `run_code` call.  `error` is the rendered
`error_output` string of `nodes.py:172-176` (`str(execution.error)` with the
optional traceback and stderr suffixes already folded in, since those only
feed the feedback text). -/
structure SandboxRun where
  error : Option String
  logs : SandboxLogs
  deriving DecidableEq, Repr

/-- Observable behaviour of one outer sandbox attempt: either an exception is
raised (during creation or while communicating with the live session) with the
given message, or a session comes up and the single `run_code` of the main
script completes with the given result. -/
inductive SandboxAttempt where
  | raise (msg : String)
  | run (res : SandboxRun)
  deriving DecidableEq, Repr

/-- Observable behaviour of the local `subprocess.run` call in
`_execute_locally` (`nodes.py:250-256`): normal completion with an exit code
and captured stdout/stderr, a `TimeoutExpired`, or some other exception. -/
inductive LocalRun where
  | completed (returncode : Int) (stdout stderr : String)
  | timedOut
  | raised (msg : String)
  deriving DecidableEq, Repr

/-- Behaviour of the execution backend for one `execute_code` node visit:
`sandbox n` is what the `n`-th outer sandbox attempt would observe, and
`localRun` is what a local-fallback subprocess run would observe. -/
structure ExecBehavior where
  sandbox : Nat → SandboxAttempt
  localRun : LocalRun

/-! ## Workflow nodes (`src/core/nodes.py`) -/

/-- `optimize_prompt` (`nodes.py:25-51`).  The completion call
`call_llm_with_tool(messages, CodeSolution)` is the oracle `resp`.  On error
the node stores the error message; on success it stores the optimized prompt
and REPLACES `feedback_history` with a fresh single-entry list (line 50). -/
def optimize_prompt (resp : Except String CodeSolution) (s : GraphState) : GraphState :=
  match resp with
  | .error e => { s with error_message := some e }
  | .ok inst =>
      { s with
        optimized_prompt := inst.optimized_prompt,
        feedback_history := ["Reasoning for prompt optimization: " ++ inst.reasoning] }

/-- `generate_code` (`nodes.py:54-80`).  The completion call
`call_llm_with_tool(messages, PythonCode)` is the oracle `resp`.  On error the
node stores the error message (iteration unchanged); on success it stores the
artifact and increments `iteration`.  Note: `error_message` is NOT cleared on
success in the source. -/
def generate_code (resp : Except String PythonCode) (s : GraphState) : GraphState :=
  match resp with
  | .error e => { s with error_message := some e }
  | .ok inst =>
      { s with
        generation := some inst,
        iteration := s.iteration + 1 }

/-- Exception-message classification of the first branch at `nodes.py:203`:
`"port is not open" in error_msg.lower() or "sandbox" in error_msg.lower() or
"502" in error_msg`. -/
def isConnectivityMsg (m : String) : Bool :=
  strContains (pyLower m) "port is not open" || strContains (pyLower m) "sandbox"
    || strContains m "502"

/-- Exception-message classification of the branch at `nodes.py:214`:
`"timeout" in error_msg.lower() and "sandbox.run_code" not in error_msg.lower()`. -/
def isLifecycleTimeoutMsg (m : String) : Bool :=
  strContains (pyLower m) "timeout" && ! strContains (pyLower m) "sandbox.run_code"

/-- `max_sandbox_retries = 3` (`nodes.py:109`). -/
def maxSandboxRetries : Nat := 3

/-- Failure state returned when the in-sandbox execution reports an error
(`nodes.py:171-181`). -/
def sandboxRunErrorState (s : GraphState) (errorOutput : String) : GraphState :=
  { s with
    error_message := some "Execution failed with sandbox error.",
    feedback_history :=
      s.feedback_history ++ ["Your code failed to execute. Error:\n" ++ errorOutput] }

/-- Success state returned when the in-sandbox execution completes without a
reported error (`nodes.py:182-197`): the output is the stripped newline-join of
the captured stdout lines if that list is non-empty, otherwise a fixed
placeholder; `error_message` is cleared. -/
def sandboxSuccessState (s : GraphState) (logs : SandboxLogs) : GraphState :=
  let final_output :=
    if logs.stdout ≠ [] then pyStrip (String.intercalate "\n" logs.stdout)
    else "Code executed successfully (no direct stdout)"
  { s with execution_result := some final_output, error_message := none }

/-- Failure state returned on a sandbox lifecycle timeout (`nodes.py:214-221`). -/
def lifecycleTimeoutState (t : Nat) (s : GraphState) : GraphState :=
  { s with
    error_message := some "Sandbox lifecycle timeout.",
    feedback_history :=
      s.feedback_history ++
        ["The code execution environment took too long to initialize or operate (overall timeout "
          ++ toString t ++ "s)."] }

/-- `_execute_locally` (`nodes.py:238-299`).  `t` is `MAX_CODE_TIMEOUT`.  The
temporary-file bookkeeping (write + guaranteed unlink) has no effect on the
returned state and is not modelled.  A non-zero exit stores a failure with
stderr-derived feedback; exit 0 stores the stripped stdout (or a placeholder
when that is empty) and clears `error_message`; a timeout and any other
exception store failure states with the corresponding feedback entries. -/
def execute_locally (t : Nat) (r : LocalRun) (s : GraphState) : GraphState :=
  match r with
  | .completed rc out err =>
      if rc ≠ 0 then
        let error_output :=
          if pyStrip err = "" then "Unknown error occurred during local execution"
          else pyStrip err
        { s with
          error_message := some "Local execution failed.",
          feedback_history :=
            s.feedback_history ++
              ["Your code failed to execute locally. Error:\n" ++ error_output] }
      else
        let output :=
          if pyStrip out = "" then "Code executed successfully locally (no output)"
          else pyStrip out
        { s with execution_result := some output, error_message := none }
  | .timedOut =>
      { s with
        error_message := some "Local execution timed out.",
        feedback_history :=
          s.feedback_history ++
            ["Your code took longer than " ++ toString t ++
              " seconds to run and was terminated. Please optimize for performance."] }
  | .raised e =>
      { s with
        error_message := some e,
        feedback_history :=
          s.feedback_history ++
            ["The code could not be executed locally due to an error: " ++ e] }

/-- The outer attempt loop `for attempt in range(max_sandbox_retries)` of
`_execute_with_e2b` (`nodes.py:110-235`), one constructor case per way an
iteration can end.  `attempt` is the loop index, `remaining` the number of
iterations the `range` still has; when the loop exhausts without returning,
control falls through to the unconditional local fallback of `nodes.py:235`.

Within a live session (`SandboxAttempt.run`): a reported execution error
returns the failure state immediately, otherwise the success state is
returned — there is no inner retry loop in the source.  An exception
(`SandboxAttempt.raise`) is classified by its message text: connectivity
errors retry while attempts remain, then fall back to local execution
(`nodes.py:209-213` when `ALLOW_LOCAL_EXECUTION`, else by falling out of the
loop into `nodes.py:235`); lifecycle timeouts return a failure immediately
(`nodes.py:214-221`); unknown errors retry while attempts remain, then fall
back to local execution (`nodes.py:222-232`).  The best-effort pip-install
loop (`nodes.py:123-163`) only logs and never alters the returned state, so it
is not modelled. -/
def e2bGo (allow : Bool) (t : Nat) (lr : LocalRun) (oracle : Nat → SandboxAttempt)
    (s : GraphState) : Nat → Nat → GraphState
  | _, 0 => execute_locally t lr s
  | attempt, remaining + 1 =>
    match oracle attempt with
    | .run res =>
        match res.error with
        | some errorOutput => sandboxRunErrorState s errorOutput
        | none => sandboxSuccessState s res.logs
    | .raise msg =>
        if isConnectivityMsg msg then
          if attempt < maxSandboxRetries - 1 then
            e2bGo allow t lr oracle s (attempt + 1) remaining
          else if allow then execute_locally t lr s
          else e2bGo allow t lr oracle s (attempt + 1) remaining
        else if isLifecycleTimeoutMsg msg then lifecycleTimeoutState t s
        else if attempt < maxSandboxRetries - 1 then
          e2bGo allow t lr oracle s (attempt + 1) remaining
        else execute_locally t lr s

/-- `_execute_with_e2b` (`nodes.py:103-235`): run the outer loop with
`max_sandbox_retries = 3` attempts starting at attempt index 0.  `allow` is
`ALLOW_LOCAL_EXECUTION`, `t` is `MAX_CODE_TIMEOUT` (used both as the sandbox
lifecycle timeout, `nodes.py:112`, and the per-run timeout). -/
def executeWithE2B (allow : Bool) (t : Nat) (b : ExecBehavior) (s : GraphState) : GraphState :=
  e2bGo allow t b.localRun b.sandbox s 0 maxSandboxRetries

/-- `execute_code` (`nodes.py:83-100`): if no artifact exists the node fails
immediately; otherwise the code fences are stripped from `imports` and `code`,
the script is assembled as `imports + "\n\n" + code`, and the result of the
sandbox path is returned.  The assembled script itself only travels to the
external runners, whose observable outcomes the `ExecBehavior` oracle already
provides. -/
def execute_code (allow : Bool) (t : Nat) (b : ExecBehavior) (s : GraphState) : GraphState :=
  match s.generation with
  | none => { s with error_message := some "Code generation was skipped or failed." }
  | some code_gen =>
      let imports := stripFences code_gen.imports
      let code := stripFences code_gen.code
      let _full_code := imports ++ "\n\n" ++ code
      executeWithE2B allow t b s

/-- The assembled script text prepared by `execute_code` (`nodes.py:95-97`). -/
def assembleCode (gen : PythonCode) : String :=
  stripFences gen.imports ++ "\n\n" ++ stripFences gen.code

/-- `should_continue` (`nodes.py:302-318`): the router after `execute_code`.
`maxRetry` is `MAX_RETRY_ITERATIONS`.  Success (no error) ends; at or past the
retry budget ends; otherwise retry. -/
def should_continue (maxRetry : Nat) (s : GraphState) : String :=
  if s.error_message = none then "end"
  else if s.iteration ≥ maxRetry then "end"
  else "retry"

/-- Python truthiness of an optional string (`x.get("error_message")` used as a
condition): `None` and the empty string are falsy. -/
def truthy : Option String → Bool
  | none => false
  | some m => m != ""

/-- The conditional edge after `generate_code`
(`graph_flow.py:27-34`): `lambda x: "retry" if x.get("error_message") else
"continue"`, with `"continue"` mapped to `execute_code` and `"retry"` mapped
to `END`. -/
def routeAfterGenerate (s : GraphState) : String :=
  if truthy s.error_message then "retry" else "continue"

/-! ## The compiled graph (`src/core/graph_flow.py`) as a step relation -/

/-- The graph positions: the three nodes plus the `END` sentinel. -/
inductive Node where
  | optimize
  | generate
  | execute
  | done
  deriving DecidableEq, Repr

/-- The configuration surface and external behaviour of one workflow run:
`MAX_RETRY_ITERATIONS`, `MAX_CODE_TIMEOUT`, `ALLOW_LOCAL_EXECUTION`, the
outcome of the single prompt-optimization completion call, the outcome of the
`n`-th code-generation completion call, and the execution-backend behaviour of
the `n`-th `execute_code` visit. -/
structure Env where
  maxRetry : Nat
  maxCodeTimeout : Nat
  allowLocal : Bool
  optimizeResp : Except String CodeSolution
  generateResp : Nat → Except String PythonCode
  execBehavior : Nat → ExecBehavior

/-- A point in a workflow run: current graph position, current state, and how
many generation / execution node visits have happened so far. -/
structure Config where
  node : Node
  state : GraphState
  genCalls : Nat
  execCalls : Nat
  deriving Repr

/-- One transition of the compiled graph (`graph_flow.py:24-43`):
`START → optimize_prompt`; an unconditional edge
`optimize_prompt → generate_code`; after `generate_code` the conditional edge
routes on truthiness of `error_message` (`"retry" → END`,
`"continue" → execute_code`); after `execute_code` the router
`should_continue` sends `"end" → END` and `"retry" → generate_code`.  `END` is
absorbing. -/
def step (env : Env) (cfg : Config) : Config :=
  match cfg.node with
  | .optimize =>
      { cfg with
        node := .generate,
        state := optimize_prompt env.optimizeResp cfg.state }
  | .generate =>
      let s' := generate_code (env.generateResp cfg.genCalls) cfg.state
      { cfg with
        node := if routeAfterGenerate s' = "retry" then .done else .execute,
        state := s',
        genCalls := cfg.genCalls + 1 }
  | .execute =>
      let s' := execute_code env.allowLocal env.maxCodeTimeout
          (env.execBehavior cfg.execCalls) cfg.state
      { cfg with
        node := if should_continue env.maxRetry s' = "end" then .done else .generate,
        state := s',
        execCalls := cfg.execCalls + 1 }
  | .done => cfg

/-- The initial state prepared by `CodeAgent.generate_and_execute`
(`code_agent.py:67-75`); `generate_code_only` uses the identical initial state
(`code_agent.py:120-128`). -/
def initialState (q : String) : GraphState :=
  { initial_question := q
    optimized_prompt := ""
    generation := none
    execution_result := none
    error_message := none
    feedback_history := []
    iteration := 0 }

/-- The initial configuration: at the `optimize_prompt` node with no calls made. -/
def initConfig (q : String) : Config :=
  { node := .optimize, state := initialState q, genCalls := 0, execCalls := 0 }

/-- `n` steps of one workflow run under environment `env` on question `q`. -/
def run (env : Env) (q : String) (n : Nat) : Config :=
  (step env)^[n] (initConfig q)

/-! ## Result assembly (`src/core/code_agent.py`) -/

/-- `ExecutionResult` (`code_agent.py:12-26`); the wall-clock
`execution_time` field is not modelled. -/
structure ExecutionResult where
  success : Bool
  code : Option String
  imports : Option String
  output : Option String
  error_message : Option String
  iterations : Nat
  feedback_history : List String
  deriving DecidableEq, Repr

/-- `CodeAgent._process_final_state` (`code_agent.py:178-192`): success iff
`error_message is None and execution_result is not None`. -/
def process_final_state (s : GraphState) : ExecutionResult :=
  { success := s.error_message.isNone && s.execution_result.isSome
    code := s.generation.map (·.code)
    imports := s.generation.map (·.imports)
    output := s.execution_result
    error_message := s.error_message
    iterations := s.iteration
    feedback_history := s.feedback_history }

/-- The loop-break test of `CodeAgent.generate_code_only`
(`code_agent.py:142`): `if node_name == "code_generate" and not
state.get("error_message"): break`. -/
def generateCodeOnlyBreak (nodeName : String) (errorMessage : Option String) : Bool :=
  nodeName == "code_generate" && ! truthy errorMessage

/-- The node names actually registered on the graph (`graph_flow.py:20-22`). -/
def graphFlowNodeNames : List String :=
  ["optimize_prompt", "generate_code", "execute_code"]

/-! ## Basic lemmas about the node functions -/

theorem optimize_prompt_execution_result (r : Except String CodeSolution) (s : GraphState) :
    (optimize_prompt r s).execution_result = s.execution_result := by
  cases r <;> rfl

theorem optimize_prompt_iteration (r : Except String CodeSolution) (s : GraphState) :
    (optimize_prompt r s).iteration = s.iteration := by
  cases r <;> rfl

theorem generate_code_execution_result (r : Except String PythonCode) (s : GraphState) :
    (generate_code r s).execution_result = s.execution_result := by
  cases r <;> rfl

theorem generate_code_iteration_le (r : Except String PythonCode) (s : GraphState) :
    (generate_code r s).iteration ≤ s.iteration + 1 := by
  cases r <;> simp [generate_code]

theorem truthy_isSome {o : Option String} (h : truthy o = true) : o.isSome = true := by
  cases o <;> simp_all [truthy]

/-- Joint shape of every exit path of `_execute_locally`: the iteration counter
is untouched, and either the run succeeded (`error_message` cleared, an
execution result stored) or it failed (`error_message` set, the execution
result left as it was). -/
theorem execute_locally_spec (t : Nat) (r : LocalRun) (s : GraphState) :
    (execute_locally t r s).iteration = s.iteration ∧
    (((execute_locally t r s).error_message = none ∧
        (execute_locally t r s).execution_result.isSome = true) ∨
      ((execute_locally t r s).error_message.isSome = true ∧
        (execute_locally t r s).execution_result = s.execution_result)) := by
  cases r with
  | completed rc out err =>
      by_cases h : rc ≠ 0 <;> simp [execute_locally, h]
  | timedOut => simp [execute_locally]
  | raised e => simp [execute_locally]

/-- Joint shape of every exit path of the outer sandbox loop. -/
theorem e2bGo_spec (allow : Bool) (t : Nat) (lr : LocalRun) (oracle : Nat → SandboxAttempt)
    (s : GraphState) :
    ∀ remaining attempt,
      (e2bGo allow t lr oracle s attempt remaining).iteration = s.iteration ∧
      (((e2bGo allow t lr oracle s attempt remaining).error_message = none ∧
          (e2bGo allow t lr oracle s attempt remaining).execution_result.isSome = true) ∨
        ((e2bGo allow t lr oracle s attempt remaining).error_message.isSome = true ∧
          (e2bGo allow t lr oracle s attempt remaining).execution_result = s.execution_result)) := by
  intro remaining
  induction remaining with
  | zero => intro attempt; exact execute_locally_spec t lr s
  | succ n ih =>
      intro attempt
      rw [e2bGo]
      cases h : oracle attempt with
      | run res =>
          cases he : res.error with
          | some e => simp [he, sandboxRunErrorState]
          | none => simp [he, sandboxSuccessState]
      | raise msg =>
          by_cases h1 : isConnectivityMsg msg
          · by_cases h2 : attempt < maxSandboxRetries - 1
            · simpa [h1, h2] using ih (attempt + 1)
            · by_cases h3 : allow
              · simpa [h1, h2, h3] using execute_locally_spec t lr s
              · simpa [h1, h2, h3] using ih (attempt + 1)
          · by_cases h2 : isLifecycleTimeoutMsg msg
            · simp [h1, h2, lifecycleTimeoutState]
            · by_cases h3 : attempt < maxSandboxRetries - 1
              · simpa [h1, h2, h3] using ih (attempt + 1)
              · simpa [h1, h2, h3] using execute_locally_spec t lr s

/-- Joint shape of every exit path of the `execute_code` node. -/
theorem execute_code_spec (allow : Bool) (t : Nat) (b : ExecBehavior) (s : GraphState) :
    (execute_code allow t b s).iteration = s.iteration ∧
    (((execute_code allow t b s).error_message = none ∧
        (execute_code allow t b s).execution_result.isSome = true) ∨
      ((execute_code allow t b s).error_message.isSome = true ∧
        (execute_code allow t b s).execution_result = s.execution_result)) := by
  cases hg : s.generation with
  | none => simp [execute_code, hg]
  | some g =>
      simpa [execute_code, hg, executeWithE2B] using
        e2bGo_spec allow t b.localRun b.sandbox s maxSandboxRetries 0

/-! ## Run invariants of the compiled graph -/

/-- On workflow termination exactly one of `execution_result` and
`error_message` is present. -/
def exactlyOne (s : GraphState) : Prop :=
  (s.error_message = none ∧ s.execution_result.isSome = true) ∨
  (s.error_message.isSome = true ∧ s.execution_result = none)

/-- Invariant relating `execution_result` and `error_message` to the current
graph position. -/
def resultErrorInv (c : Config) : Prop :=
  (c.node = .optimize → c.state.execution_result = none ∧ c.state.error_message = none) ∧
  (c.node = .generate → c.state.execution_result = none) ∧
  (c.node = .execute → c.state.execution_result = none) ∧
  (c.node = .done → exactlyOne c.state)

theorem resultErrorInv_step (env : Env) (c : Config) (h : resultErrorInv c) :
    resultErrorInv (step env c) := by
  obtain ⟨h1, h2, h3, h4⟩ := h
  cases hn : c.node with
  | optimize =>
      obtain ⟨hres, herr⟩ := h1 hn
      refine ⟨?_, ?_, ?_, ?_⟩ <;>
        simp [step, hn, optimize_prompt_execution_result, hres]
  | generate =>
      have hres := h2 hn
      by_cases ht : truthy (generate_code (env.generateResp c.genCalls) c.state).error_message
      · refine ⟨?_, ?_, ?_, ?_⟩ <;>
          simp [step, hn, routeAfterGenerate, ht, exactlyOne, truthy_isSome ht,
            generate_code_execution_result, hres]
      · refine ⟨?_, ?_, ?_, ?_⟩ <;>
          simp [step, hn, routeAfterGenerate, ht, generate_code_execution_result, hres]
  | execute =>
      have hres := h3 hn
      obtain ⟨-, hspec⟩ :=
        execute_code_spec env.allowLocal env.maxCodeTimeout
          (env.execBehavior c.execCalls) c.state
      by_cases hend :
          should_continue env.maxRetry
            (execute_code env.allowLocal env.maxCodeTimeout
              (env.execBehavior c.execCalls) c.state) = "end"
      · refine ⟨?_, ?_, ?_, ?_⟩ <;> simp [step, hn, hend]
        rcases hspec with ⟨he, hr⟩ | ⟨he, hr⟩
        · exact Or.inl ⟨he, hr⟩
        · exact Or.inr ⟨he, hres ▸ hr⟩
      · refine ⟨?_, ?_, ?_, ?_⟩ <;> simp [step, hn, hend]
        rcases hspec with ⟨he, hr⟩ | ⟨he, hr⟩
        · exact absurd (by simp [should_continue, he]) hend
        · exact hres ▸ hr
  | done =>
      have hdone := h4 hn
      refine ⟨?_, ?_, ?_, ?_⟩ <;> simp [step, hn, hdone]

theorem resultErrorInv_run (env : Env) (q : String) (n : Nat) :
    resultErrorInv (run env q n) := by
  induction n with
  | zero =>
      refine ⟨fun _ => ⟨rfl, rfl⟩, ?_, ?_, ?_⟩ <;> intro hn <;> simp [run, initConfig] at hn
  | succ n ih =>
      rw [run, Function.iterate_succ_apply']
      exact resultErrorInv_step env _ ih

/-- Invariant bounding the iteration counter by the retry budget. -/
def iterationInv (R : Nat) (c : Config) : Prop :=
  (c.node = .optimize → c.state.iteration = 0) ∧
  (c.node = .generate → c.state.iteration < R) ∧
  (c.node = .execute → c.state.iteration ≤ R) ∧
  (c.node = .done → c.state.iteration ≤ R)

theorem iterationInv_step (env : Env) (hR : 1 ≤ env.maxRetry) (c : Config)
    (h : iterationInv env.maxRetry c) : iterationInv env.maxRetry (step env c) := by
  obtain ⟨h1, h2, h3, h4⟩ := h
  cases hn : c.node with
  | optimize =>
      have h0 := h1 hn
      refine ⟨?_, ?_, ?_, ?_⟩ <;>
        simp [step, hn, optimize_prompt_iteration, h0] <;> omega
  | generate =>
      have hlt := h2 hn
      have hle := generate_code_iteration_le (env.generateResp c.genCalls) c.state
      by_cases ht : routeAfterGenerate
          (generate_code (env.generateResp c.genCalls) c.state) = "retry"
      · refine ⟨?_, ?_, ?_, ?_⟩ <;> simp [step, hn, ht] <;> omega
      · refine ⟨?_, ?_, ?_, ?_⟩ <;> simp [step, hn, ht] <;> omega
  | execute =>
      have hle := h3 hn
      obtain ⟨hiter, -⟩ :=
        execute_code_spec env.allowLocal env.maxCodeTimeout
          (env.execBehavior c.execCalls) c.state
      by_cases hend :
          should_continue env.maxRetry
            (execute_code env.allowLocal env.maxCodeTimeout
              (env.execBehavior c.execCalls) c.state) = "end"
      · refine ⟨?_, ?_, ?_, ?_⟩ <;> simp [step, hn, hend] <;> omega
      · have hretry : (execute_code env.allowLocal env.maxCodeTimeout
            (env.execBehavior c.execCalls) c.state).iteration < env.maxRetry := by
          by_cases he : (execute_code env.allowLocal env.maxCodeTimeout
              (env.execBehavior c.execCalls) c.state).error_message = none
          · exact absurd (by simp [should_continue, he]) hend
          · by_cases hi : (execute_code env.allowLocal env.maxCodeTimeout
                (env.execBehavior c.execCalls) c.state).iteration ≥ env.maxRetry
            · exact absurd (by simp [should_continue, he, hi]) hend
            · omega
        refine ⟨?_, ?_, ?_, ?_⟩ <;> simp [step, hn, hend] <;> omega
  | done =>
      have hdone := h4 hn
      refine ⟨?_, ?_, ?_, ?_⟩ <;> simp [step, hn, hdone]

theorem iterationInv_run (env : Env) (hR : 1 ≤ env.maxRetry) (q : String) (n : Nat) :
    iterationInv env.maxRetry (run env q n) := by
  induction n with
  | zero =>
      refine ⟨fun _ => rfl, ?_, ?_, ?_⟩ <;> intro hn <;> simp [run, initConfig] at hn
  | succ n ih =>
      rw [run, Function.iterate_succ_apply']
      exact iterationInv_step env hR _ ih

/-! ## Idempotence of the code-fence stripping (`nodes.py:95-97`) -/

theorem toList_asString (l : List Char) : (List.asString l).toList = l := rfl

theorem fence3_eq : fence3 = [btick, btick, btick] := by decide

/-- The trailing part of the long fence pattern. -/
def pyTailChars : List Char := "python\n".toList

theorem fencePy_decomp : fencePy = fence3 ++ pyTailChars := by decide

theorem isPrefixOf_append_left (a : List Char) :
    ∀ (b l : List Char), (a ++ b).isPrefixOf l = true → a.isPrefixOf l = true := by
  induction a with
  | nil => intro b l _; simp [List.isPrefixOf]
  | cons x xs ih =>
      intro b l h
      cases l with
      | nil => simp [List.isPrefixOf] at h
      | cons y ys =>
          simp only [List.cons_append, List.isPrefixOf, Bool.and_eq_true] at h ⊢
          exact ⟨h.1, ih b ys h.2⟩

/-- `fence3.isPrefixOf` is exactly the three-backtick head test. -/
theorem fence3_isPrefixOf_eq (l : List Char) : fence3.isPrefixOf l = startsTicks3 l := by
  rw [fence3_eq]
  cases l with
  | nil => rfl
  | cons c1 r1 =>
      cases r1 with
      | nil => simp [List.isPrefixOf, startsTicks3]
      | cons c2 r2 =>
          cases r2 with
          | nil => simp [List.isPrefixOf, startsTicks3]
          | cons c3 r3 => simp [List.isPrefixOf, startsTicks3]

theorem startsTicks3_cons (c : Char) (m : List Char) :
    startsTicks3 (c :: m) = (btick == c && startsTicks2 m) := by
  cases m with
  | nil => simp [startsTicks3, startsTicks2]
  | cons x xs =>
      cases xs with
      | nil => simp [startsTicks3, startsTicks2]
      | cons y ys => rfl

theorem startsTicks2_false_of_head {c : Char} (h : c ≠ btick) (m : List Char) :
    startsTicks2 (c :: m) = false := by
  cases m with
  | nil => rfl
  | cons x xs => simp [startsTicks2]; intro e; exact absurd e.symm h

/-- When the head is not part of a fence match, `subFences` keeps it and
continues on the tail. -/
theorem subFences_cons_of_not_ticks3 (c : Char) (r : List Char)
    (h : startsTicks3 (c :: r) = false) : subFences (c :: r) = c :: subFences r := by
  have hf3 : fence3.isPrefixOf (c :: r) = false := by
    rw [fence3_isPrefixOf_eq]; exact h
  have hpy : fencePy.isPrefixOf (c :: r) = false := by
    cases hp : fencePy.isPrefixOf (c :: r)
    · rfl
    · have := isPrefixOf_append_left fence3 pyTailChars (c :: r) (fencePy_decomp ▸ hp)
      rw [hf3] at this
      exact absurd this (by simp)
  rw [subFences]
  simp [hpy, hf3]

/-- `subFences` preserves a non-backtick head. -/
theorem subFences_head (l : List Char) (h : l.head? ≠ some btick) :
    (subFences l).head? = l.head? := by
  cases l with
  | nil => rw [subFences]
  | cons c r =>
      have hc : c ≠ btick := by intro e; exact h (by simp [e])
      have h3 : startsTicks3 (c :: r) = false := by
        rw [startsTicks3_cons]
        have : (btick == c) = false := by simp; exact fun e => hc e.symm
        simp [this]
      rw [subFences_cons_of_not_ticks3 c r h3]
      rfl

/-- `subFences` never creates a leading double backtick. -/
theorem startsTicks2_subFences (l : List Char) (h : startsTicks2 l = false) :
    startsTicks2 (subFences l) = false := by
  cases l with
  | nil => rw [subFences]; rfl
  | cons c1 r1 =>
      cases r1 with
      | nil =>
          have h3 : startsTicks3 [c1] = false := rfl
          rw [subFences_cons_of_not_ticks3 _ _ h3]
          rw [subFences]
          rfl
      | cons c2 r2 =>
          by_cases hc1 : c1 = btick
          · have hc2 : c2 ≠ btick := by
              intro e
              rw [hc1, e] at h
              simp [startsTicks2] at h
            have h3 : startsTicks3 (c1 :: c2 :: r2) = false := by
              rw [startsTicks3_cons, startsTicks2_false_of_head hc2]
              simp
            rw [subFences_cons_of_not_ticks3 _ _ h3]
            have hh := subFences_head (c2 :: r2) (by simp; exact fun e => hc2 e)
            cases hX : subFences (c2 :: r2) with
            | nil => rfl
            | cons x xs =>
                rw [hX] at hh
                simp at hh
                rw [hh]
                have hb : (btick == c2) = false := by
                  simp
                  exact fun e => hc2 e.symm
                simp [startsTicks2, hb]
          · have h3 : startsTicks3 (c1 :: c2 :: r2) = false := by
              rw [startsTicks3_cons]
              have : (btick == c1) = false := by simp; exact fun e => hc1 e.symm
              simp [this]
            rw [subFences_cons_of_not_ticks3 _ _ h3]
            exact startsTicks2_false_of_head hc1 _

theorem containsTicks3_cons_false {c : Char} {r : List Char}
    (h : containsTicks3 (c :: r) = false) :
    startsTicks3 (c :: r) = false ∧ containsTicks3 r = false := by
  rw [containsTicks3] at h
  exact ⟨by simp at h; exact h.1, by simp at h; exact h.2⟩

/-- The output of `subFences` never contains three consecutive backticks: one
pass removes every fence delimiter. -/
theorem containsTicks3_subFences (l : List Char) : containsTicks3 (subFences l) = false := by
  have H : ∀ n, ∀ l : List Char, l.length ≤ n → containsTicks3 (subFences l) = false := by
    intro n
    induction n with
    | zero =>
        intro l hl
        cases l with
        | nil => rw [subFences]; rfl
        | cons c rest => simp at hl
    | succ n ih =>
        intro l hl
        cases l with
        | nil => rw [subFences]; rfl
        | cons c rest =>
            simp only [List.length_cons] at hl
            by_cases hpy : fencePy.isPrefixOf (c :: rest) = true
            · have heq : subFences (c :: rest) = subFences ((c :: rest).drop fencePy.length) := by
                rw [subFences]; simp [hpy]
              rw [heq]
              refine ih _ ?_
              have h10 : fencePy.length = 10 := by decide
              simp only [List.length_drop, List.length_cons, h10]
              omega
            · by_cases hf3 : fence3.isPrefixOf (c :: rest) = true
              · have heq : subFences (c :: rest) = subFences ((c :: rest).drop fence3.length) := by
                  rw [subFences]; simp [hpy, hf3]
                rw [heq]
                refine ih _ ?_
                have h3 : fence3.length = 3 := by decide
                simp only [List.length_drop, List.length_cons, h3]
                omega
              · have hs3 : startsTicks3 (c :: rest) = false := by
                  rw [← fence3_isPrefixOf_eq]
                  cases hb : fence3.isPrefixOf (c :: rest)
                  · rfl
                  · exact absurd hb hf3
                rw [subFences_cons_of_not_ticks3 _ _ hs3]
                rw [containsTicks3]
                have htail : containsTicks3 (subFences rest) = false := by
                  refine ih _ ?_
                  omega
                have hhead : startsTicks3 (c :: subFences rest) = false := by
                  rw [startsTicks3_cons]
                  by_cases hc : c = btick
                  · have h2 : startsTicks2 rest = false := by
                      rw [startsTicks3_cons, hc] at hs3
                      simpa using hs3
                    rw [startsTicks2_subFences rest h2]
                    simp
                  · have hb : (btick == c) = false := by
                      simp
                      exact fun e => hc e.symm
                    simp [hb]
                rw [hhead, htail]
                rfl
  exact H l.length l le_rfl

/-- On fence-free input `subFences` is the identity. -/
theorem subFences_eq_self (l : List Char) (h : containsTicks3 l = false) :
    subFences l = l := by
  induction l with
  | nil => rw [subFences]
  | cons c rest ih =>
      obtain ⟨h1, h2⟩ := containsTicks3_cons_false h
      rw [subFences_cons_of_not_ticks3 _ _ h1, ih h2]

theorem startsTicks2_append_left (a b : List Char)
    (h : startsTicks2 (a ++ b) = false) : startsTicks2 a = false := by
  cases a with
  | nil => rfl
  | cons x r =>
      cases r with
      | nil => rfl
      | cons y r2 => exact h

theorem containsTicks3_append_left (a b : List Char)
    (h : containsTicks3 (a ++ b) = false) : containsTicks3 a = false := by
  induction a with
  | nil => rfl
  | cons c a2 ih =>
      rw [List.cons_append] at h
      obtain ⟨h1, h2⟩ := containsTicks3_cons_false h
      rw [containsTicks3]
      have ha2 := ih h2
      have hst : startsTicks3 (c :: a2) = false := by
        rw [startsTicks3_cons] at h1 ⊢
        cases hb : (btick == c) with
        | false => simp [hb]
        | true =>
            rw [hb] at h1
            simp only [Bool.true_and] at h1 ⊢
            exact startsTicks2_append_left a2 b h1
      rw [hst, ha2]
      rfl

theorem containsTicks3_dropWhile (p : Char → Bool) (l : List Char)
    (h : containsTicks3 l = false) : containsTicks3 (l.dropWhile p) = false := by
  induction l with
  | nil => simpa using h
  | cons c rest ih =>
      obtain ⟨h1, h2⟩ := containsTicks3_cons_false h
      by_cases hp : p c = true
      · rw [List.dropWhile_cons, if_pos hp]
        exact ih h2
      · rw [List.dropWhile_cons, if_neg hp]
        exact h

theorem dropTrailingWS_eq_append (l : List Char) : ∃ m, l = dropTrailingWS l ++ m := by
  induction l with
  | nil => exact ⟨[], rfl⟩
  | cons c rest ih =>
      obtain ⟨m0, hm⟩ := ih
      cases hd : dropTrailingWS rest with
      | nil =>
          by_cases hw : c.isWhitespace
          · refine ⟨c :: rest, ?_⟩
            simp [dropTrailingWS, hd, hw]
          · refine ⟨rest, ?_⟩
            simp [dropTrailingWS, hd, hw]
      | cons r rs =>
          refine ⟨m0, ?_⟩
          have h1 : dropTrailingWS (c :: rest) = c :: r :: rs := by
            rw [dropTrailingWS, hd]
          rw [hd] at hm
          rw [h1, hm]
          simp

theorem containsTicks3_dropTrailingWS (l : List Char) (h : containsTicks3 l = false) :
    containsTicks3 (dropTrailingWS l) = false := by
  obtain ⟨m, hm⟩ := dropTrailingWS_eq_append l
  rw [hm] at h
  exact containsTicks3_append_left _ _ h

theorem containsTicks3_trimChars (l : List Char) (h : containsTicks3 l = false) :
    containsTicks3 (trimChars l) = false := by
  rw [trimChars]
  exact containsTicks3_dropTrailingWS _ (containsTicks3_dropWhile _ _ h)

theorem dropWhile_head_false (p : Char → Bool) (l : List Char) {c : Char} {r : List Char}
    (h : l.dropWhile p = c :: r) : p c = false := by
  induction l with
  | nil => simp at h
  | cons x xs ih =>
      by_cases hp : p x = true
      · rw [List.dropWhile_cons, if_pos hp] at h
        exact ih h
      · rw [List.dropWhile_cons, if_neg hp] at h
        injection h with h1 h2
        subst h1
        simpa using hp

theorem dropTrailingWS_idem (l : List Char) :
    dropTrailingWS (dropTrailingWS l) = dropTrailingWS l := by
  induction l with
  | nil => rfl
  | cons c rest ih =>
      cases hd : dropTrailingWS rest with
      | nil =>
          by_cases hw : c.isWhitespace
          · simp [dropTrailingWS, hd, hw]
          · simp [dropTrailingWS, hd, hw]
      | cons r rs =>
          have h1 : dropTrailingWS (c :: rest) = c :: r :: rs := by
            simp [dropTrailingWS, hd]
          have h2 : dropTrailingWS (r :: rs) = r :: rs := by
            rw [← hd]
            exact ih
          rw [h1]
          rw [dropTrailingWS, h2]

theorem dropWhile_dropTrailingWS (p : Char → Bool) (l : List Char) :
    (dropTrailingWS (l.dropWhile p)).dropWhile p = dropTrailingWS (l.dropWhile p) := by
  cases hd : dropTrailingWS (l.dropWhile p) with
  | nil => rfl
  | cons x xs =>
      obtain ⟨m, hm⟩ := dropTrailingWS_eq_append (l.dropWhile p)
      rw [hd] at hm
      rw [List.cons_append] at hm
      have hx : p x = false := dropWhile_head_false p l hm
      rw [List.dropWhile_cons, if_neg (by simp [hx])]

theorem trimChars_idem (l : List Char) : trimChars (trimChars l) = trimChars l := by
  rw [trimChars, trimChars, dropWhile_dropTrailingWS]
  exact dropTrailingWS_idem _

theorem subFences_trimChars_subFences (l : List Char) :
    subFences (trimChars (subFences l)) = trimChars (subFences l) :=
  subFences_eq_self _ (containsTicks3_trimChars _ (containsTicks3_subFences l))

/-- One pass of the fence-stripping already removes every fence delimiter, so a
second pass changes nothing. -/
theorem stripFences_idem (s : String) : stripFences (stripFences s) = stripFences s := by
  simp only [stripFences, toList_asString]
  rw [subFences_trimChars_subFences, trimChars_idem]

/-! ## Concrete data for claim instances -/

/-- A sample prompt-optimization result. -/
def sampleSolution : CodeSolution := ⟨"optimized", "because"⟩

/-- A sample generated artifact. -/
def sampleCode : PythonCode := ⟨"desc", "import math", "print(1)"⟩

/-- A sandbox run that completes with stdout `["42"]` and no error. -/
def okRun : SandboxRun := ⟨none, ⟨["42"], []⟩⟩

/-- A sandbox run that reports a runtime error. -/
def errRun : SandboxRun := ⟨some "ZeroDivisionError: division by zero", ⟨[], []⟩⟩

/-- A state about to enter `execute_code` with an artifact present. -/
def stReady : GraphState :=
  { initialState "q" with generation := some sampleCode }

/-- Execution behaviour for C1: every sandbox attempt raises a connectivity
error, while a local run would succeed with output. -/
def behC1 : ExecBehavior :=
  ⟨fun _ => .raise "Sandbox connection failed", .completed 0 "ok output" ""⟩

/-- Environment for C2: generation always succeeds, every sandbox run reports
an execution error, retry budget 3. -/
def envC2 : Env :=
  { maxRetry := 3
    maxCodeTimeout := 100
    allowLocal := true
    optimizeResp := .ok sampleSolution
    generateResp := fun _ => .ok sampleCode
    execBehavior := fun _ => ⟨fun _ => .run errRun, .timedOut⟩ }

/-- Environment for C3 and the C7/C8 witnesses: everything succeeds first try. -/
def envHappy : Env :=
  { maxRetry := 3
    maxCodeTimeout := 100
    allowLocal := true
    optimizeResp := .ok sampleSolution
    generateResp := fun _ => .ok sampleCode
    execBehavior := fun _ => ⟨fun _ => .run okRun, .timedOut⟩ }

/-- Environment for C4: the prompt-optimization completion call fails. -/
def envC4 : Env :=
  { maxRetry := 3
    maxCodeTimeout := 100
    allowLocal := true
    optimizeResp := .error "OpenAI API Error: boom"
    generateResp := fun _ => .ok sampleCode
    execBehavior := fun _ => ⟨fun _ => .run okRun, .timedOut⟩ }

/-- Execution behaviour for C5: the first in-sandbox run reports an error;
any later sandbox run would succeed (but the code never performs one for this
execution step). -/
def behC5 : ExecBehavior :=
  ⟨fun n => if n = 0 then .run errRun else .run okRun, .timedOut⟩

/-- Execution behaviour for C10: the sandbox run succeeds with a single empty
stdout line captured. -/
def behC10 : ExecBehavior :=
  ⟨fun _ => .run ⟨none, ⟨[""], []⟩⟩, .timedOut⟩

/-! ## Claim theorems -/

/-- C1 (code bug): with `ALLOW_LOCAL_EXECUTION = False` and every outer
sandbox attempt failing with a connectivity error, `_execute_with_e2b` does
NOT terminate with a sandbox failure: the loop falls through to the
unconditional local fallback at `nodes.py:235`, and a succeeding local run
produces a success outcome — contradicting the claim that the step fails and
never succeeds via local execution. -/
theorem sandbox_exhaustion_runs_locally_despite_disallowed :
    (execute_code false 100 behC1 stReady).error_message = none ∧
    (execute_code false 100 behC1 stReady).execution_result = some "ok output" := by
  decide

/-- C2 (code bug): after an execution failure, a successful regeneration is
NOT followed by a new execution attempt.  `generate_code` never clears
`error_message` (`nodes.py:78-80`), so the conditional edge after
`generate_code` (`graph_flow.py:27-34`) sees the stale execution error and
routes to `END`: the run below ends after 2 generation calls but only 1
execution call, with the regenerated artifact stored and the old execution
error still in place — contradicting the claim. -/
theorem successful_regeneration_terminates_instead_of_reexecuting :
    (run envC2 "q" 4).node = .done ∧
    (run envC2 "q" 4).genCalls = 2 ∧
    (run envC2 "q" 4).execCalls = 1 ∧
    (run envC2 "q" 4).state.generation = some sampleCode ∧
    (run envC2 "q" 4).state.error_message = some "Execution failed with sandbox error." := by
  decide

/-- C3 (code bug): `generate_code_only` does not stop before execution.  Its
break test compares the streamed node name with `"code_generate"`, but the
names registered on the graph are `graphFlowNodeNames` — the test is `false`
for every streamed event and every error state, so the stream runs the whole
graph: on a run whose generation succeeds, the execution node is visited
(`execCalls = 1`) and an execution result is produced — contradicting the
claim that it returns before any execution. -/
theorem generate_code_only_streams_execution :
    graphFlowNodeNames = ["optimize_prompt", "generate_code", "execute_code"] ∧
    (∀ e : Option String,
      generateCodeOnlyBreak "optimize_prompt" e = false ∧
      generateCodeOnlyBreak "generate_code" e = false ∧
      generateCodeOnlyBreak "execute_code" e = false) ∧
    (run envHappy "q" 3).node = .done ∧
    (run envHappy "q" 3).execCalls = 1 ∧
    (run envHappy "q" 3).state.execution_result = some "42" := by
  refine ⟨rfl, fun e => ⟨rfl, rfl, rfl⟩, ?_, ?_, ?_⟩ <;> decide

/-- C4 counterexample: when the prompt-optimization call fails, the workflow
does NOT terminate without attempting code generation — the unconditional
edge `optimize_prompt → generate_code` (`graph_flow.py:25`) runs one
generation attempt (`genCalls = 1`) before the conditional edge ends the run
on the stale optimization error. -/
theorem optimize_failure_still_attempts_generation :
    (run envC4 "q" 2).node = .done ∧
    (run envC4 "q" 2).genCalls = 1 ∧
    (run envC4 "q" 2).state.error_message = some "OpenAI API Error: boom" := by
  decide

/-- C4 (amended): if the prompt-optimization completion call fails (with a
non-empty message, as all errors produced by `call_llm_with_tool` are), the
workflow terminates with a failure after exactly one code-generation attempt
and before any execution step. -/
theorem optimize_failure_terminates_after_one_generation
    (env : Env) (q : String) (e : String)
    (hopt : env.optimizeResp = .error e) (he : e ≠ "")
    (hgen : ∀ f, env.generateResp 0 = .error f → f ≠ "") :
    (run env q 2).node = .done ∧
    (run env q 2).execCalls = 0 ∧
    (run env q 2).genCalls = 1 ∧
    (run env q 2).state.error_message.isSome = true ∧
    (run env q 2).state.execution_result = none := by
  have hrun : run env q 2 = step env (step env (initConfig q)) := rfl
  have hs1 : step env (initConfig q) =
      { node := .generate, state := optimize_prompt env.optimizeResp (initialState q),
        genCalls := 0, execCalls := 0 } := rfl
  rw [hrun, hs1, hopt]
  cases hg : env.generateResp 0 with
  | ok inst =>
      simp [step, generate_code, optimize_prompt, routeAfterGenerate, truthy, initialState, hg, he]
  | error f =>
      have hf := hgen f hg
      simp [step, generate_code, optimize_prompt, routeAfterGenerate, truthy, initialState, hg, hf]

/-- C4 amended, witness at a concrete environment. -/
theorem optimize_failure_terminates_after_one_generation_witness :
    (run envC4 "q" 2).node = .done ∧
    (run envC4 "q" 2).execCalls = 0 ∧
    (run envC4 "q" 2).genCalls = 1 ∧
    (run envC4 "q" 2).state.error_message.isSome = true ∧
    (run envC4 "q" 2).state.execution_result = none :=
  optimize_failure_terminates_after_one_generation envC4 "q" "OpenAI API Error: boom" rfl
    (by decide) (fun f h => by simp [envC4] at h)

/-- C5 counterexample: there is no inner retry loop.  With a live session
whose first `run_code` reports an error (and where any further sandbox run
would succeed), `_execute_with_e2b` returns a failure immediately — the claim
that an erroring script is retried up to 5 times within the session and can
still yield success is contradicted. -/
theorem first_sandbox_run_error_fails_without_inner_retry :
    (execute_code true 100 behC5 stReady).error_message =
      some "Execution failed with sandbox error." ∧
    (execute_code true 100 behC5 stReady).execution_result = none ∧
    (execute_code true 100 behC5 stReady).feedback_history =
      ["Your code failed to execute. Error:\nZeroDivisionError: division by zero"] := by
  decide

/-- C5 (amended): a reported in-sandbox execution error is returned
immediately as a failure outcome carrying the error in a feedback entry; no
further run is attempted within the session (the only retries are the
workflow-level regeneration loop). -/
theorem sandbox_run_error_returns_failure_immediately
    (allow : Bool) (t : Nat) (b : ExecBehavior) (s : GraphState) (g : PythonCode)
    (r : SandboxRun) (e : String)
    (hg : s.generation = some g) (h0 : b.sandbox 0 = .run r) (he : r.error = some e) :
    (execute_code allow t b s).error_message = some "Execution failed with sandbox error." ∧
    (execute_code allow t b s).execution_result = s.execution_result ∧
    (execute_code allow t b s).feedback_history =
      s.feedback_history ++ ["Your code failed to execute. Error:\n" ++ e] := by
  have h3 : maxSandboxRetries = 2 + 1 := rfl
  simp [execute_code, hg, executeWithE2B, h3, e2bGo, h0, he, sandboxRunErrorState]

/-- C5 amended, witness at a concrete behaviour. -/
theorem sandbox_run_error_returns_failure_immediately_witness :
    (execute_code true 100 behC5 stReady).error_message =
      some "Execution failed with sandbox error." ∧
    (execute_code true 100 behC5 stReady).execution_result = stReady.execution_result ∧
    (execute_code true 100 behC5 stReady).feedback_history =
      stReady.feedback_history ++
        ["Your code failed to execute. Error:\nZeroDivisionError: division by zero"] :=
  sandbox_run_error_returns_failure_immediately true 100 behC5 stReady sampleCode errRun
    "ZeroDivisionError: division by zero" rfl rfl rfl

/-- C6 counterexample: a generation attempt whose completion call fails leaves
`iteration` unchanged at 0 — it does not increase it to 1 as the claim
("an attempt whose completion call fails still increases iteration by one")
requires. -/
theorem failed_generation_leaves_iteration_unchanged :
    (generate_code (Except.error "OpenAI API Error: boom") (initialState "q")).iteration = 0 ∧
    (initialState "q").iteration = 0 :=
  ⟨rfl, rfl⟩

/-- C6 (amended): `iteration` is incremented exactly once per SUCCESSFUL
generation attempt and left unchanged by a failed one (`nodes.py:71-80`). -/
theorem iteration_incremented_on_success_only (s : GraphState) :
    (∀ inst : PythonCode, (generate_code (Except.ok inst) s).iteration = s.iteration + 1) ∧
    (∀ e : String, (generate_code (Except.error e) s).iteration = s.iteration) :=
  ⟨fun _ => rfl, fun _ => rfl⟩

/-- C7: on workflow termination, success ⇔ `execution_result` present ⇔
`error_message` absent — exactly one of the two fields is present, and
`_process_final_state` reports success exactly in the output-present case. -/
theorem success_iff_output_present_iff_error_absent
    (env : Env) (q : String) (n : Nat) (hdone : (run env q n).node = .done) :
    ((process_final_state (run env q n).state).success = true ↔
      (run env q n).state.execution_result.isSome = true) ∧
    ((process_final_state (run env q n).state).success = true ↔
      (run env q n).state.error_message = none) ∧
    ((run env q n).state.error_message = none ↔
      (run env q n).state.execution_result.isSome = true) := by
  have h := (resultErrorInv_run env q n).2.2.2 hdone
  rcases h with ⟨he, hr⟩ | ⟨he, hr⟩
  · simp [process_final_state, he, hr]
  · obtain ⟨m, hm⟩ := Option.isSome_iff_exists.mp he
    simp [process_final_state, hm, hr]

/-- C7, witness at a concrete terminating run. -/
theorem success_iff_output_present_iff_error_absent_witness :
    ((process_final_state (run envHappy "q" 3).state).success = true ↔
      (run envHappy "q" 3).state.execution_result.isSome = true) ∧
    ((process_final_state (run envHappy "q" 3).state).success = true ↔
      (run envHappy "q" 3).state.error_message = none) ∧
    ((run envHappy "q" 3).state.error_message = none ↔
      (run envHappy "q" 3).state.execution_result.isSome = true) :=
  success_iff_output_present_iff_error_absent envHappy "q" 3 (by decide)

/-- C8: whenever a terminal decision has been reached (under a positive retry
budget, as the spec requires of the iteration budget), the iteration counter
never exceeds the configured retry budget. -/
theorem iteration_never_exceeds_retry_budget
    (env : Env) (q : String) (n : Nat) (hR : 1 ≤ env.maxRetry)
    (hdone : (run env q n).node = .done) :
    (run env q n).state.iteration ≤ env.maxRetry :=
  (iterationInv_run env hR q n).2.2.2 hdone

/-- C8, witness at a concrete terminating run. -/
theorem iteration_never_exceeds_retry_budget_witness :
    (run envHappy "q" 3).state.iteration ≤ envHappy.maxRetry :=
  iteration_never_exceeds_retry_budget envHappy "q" 3 (by decide) (by decide)

/-- C9: code-fence stripping during code assembly is idempotent — assembling
an artifact whose `imports` and `code` have already been stripped once yields
exactly the same text as assembling the original artifact (stripping twice
equals stripping once). -/
theorem code_assembly_strip_idempotent (gen : PythonCode) :
    assembleCode
        { task_description := gen.task_description
          imports := stripFences gen.imports
          code := stripFences gen.code } =
      assembleCode gen := by
  simp [assembleCode, stripFences_idem]

/-- C10 counterexample: a successful sandbox execution whose captured stdout
is the single empty line `[""]` stores the EMPTY string as the execution
output (`nodes.py:185-189` joins and strips the captured lines and only falls
back to the placeholder when the list itself is empty) — contradicting the
claim that a success outcome never carries an empty output. -/
theorem sandbox_success_with_blank_stdout_stores_empty_output :
    (execute_code true 100 behC10 stReady).error_message = none ∧
    (execute_code true 100 behC10 stReady).execution_result = some "" := by
  decide

/-- C10 (amended): on successful LOCAL execution the stored output is never
the empty string (`nodes.py:266` substitutes a placeholder), while on the
sandbox path the placeholder is stored exactly when NO stdout lines were
captured — captured lines that strip to emptiness are stored as-is. -/
theorem local_success_output_nonempty_and_sandbox_placeholder
    (t : Nat) (out err : String) (s : GraphState) (stderrL : List String) :
    (execute_locally t (LocalRun.completed 0 out err) s).execution_result ≠ some "" ∧
    (sandboxSuccessState s ⟨[], stderrL⟩).execution_result =
      some "Code executed successfully (no direct stdout)" := by
  constructor
  · by_cases h : pyStrip out = "" <;> simp [execute_locally, h]
  · rfl

/-- C10 amended, witness at concrete inputs. -/
theorem local_success_output_nonempty_and_sandbox_placeholder_witness :
    (execute_locally 100 (LocalRun.completed 0 "" "") (initialState "q")).execution_result ≠
      some "" ∧
    (sandboxSuccessState (initialState "q") ⟨[], []⟩).execution_result =
      some "Code executed successfully (no direct stdout)" :=
  local_success_output_nonempty_and_sandbox_placeholder 100 "" "" (initialState "q") []

end RACA
